import Mathlib

/-!
Verification of the Quantum Solver Suite against its specification.

The repository ships the client-side display layer
(`quantum_solver_suite/static/app.js`); the Python solver package described by
the spec (`solvers/*.py`, `app.py`) is not part of the sources, so those parts
are modelled from the spec (sections 3-8).  The JavaScript display and form
logic is embedded directly from `app.js`.
-/

namespace QuantumSolver

/-! ### Display layer, embedded from `static/app.js` -/

/-- A rendered table cell: either a numeric value or the not-applicable
marker `N/A`.  The textual conversion of the number is irrelevant to the
rendering decision and is kept symbolic. -/
inductive Cell where
  | val (x : ℚ)
  | na
deriving DecidableEq, Repr

/-- The penetration cell of the bound-states table, app.js line 231:
`state.penetration_depth || 'N/A'`.  The JavaScript `||` falls through on any
falsy value, so both `undefined` (an absent field) and `0` yield `N/A`. -/
def penetrationCell : Option ℚ → Cell
  | none => Cell.na
  | some x => if x = 0 then Cell.na else Cell.val x

/-- An optional-field cell of the energy-levels table, app.js lines 272-283:
each of `degeneracy`, `classical_turning_points`, `wavelength`, `nodes` is
rendered exactly when the field is not `undefined` (`!== undefined`), and the
cell is omitted otherwise. -/
def optionalCell : Option ℚ → Option Cell
  | none => none
  | some x => some (Cell.val x)

/-! ### Client-side numeric input validation, app.js lines 40-64 -/

/-- A JavaScript value as seen by `addParameterValidation`: `undefined`, the
number `NaN`, or a finite number (modelled as a rational). -/
inductive JSVal where
  | undef
  | nan
  | num (x : ℚ)
deriving DecidableEq

/-- `parseFloat` applied to an attribute or input value: an absent attribute
reads as `undefined` and parses to `NaN`, a non-numeric entry parses to `NaN`,
a numeric string parses to its value.  `parseFloat` never returns
`undefined`. -/
def parseFloatJS : Option ℚ → JSVal
  | none => JSVal.nan
  | some q => JSVal.num q

/-- `isNaN(v)` on a parsed value. -/
def jsIsNaN : JSVal → Bool
  | JSVal.nan => true
  | _ => false

/-- The strict inequality `v !== undefined` used as a guard in app.js line 56. -/
def jsNeUndef : JSVal → Bool
  | JSVal.undef => false
  | _ => true

/-- JavaScript `a < b`: any comparison involving `NaN` or `undefined`-coerced
operands is false; finite numbers compare numerically. -/
def jsLt : JSVal → JSVal → Bool
  | JSVal.num x, JSVal.num y => decide (x < y)
  | _, _ => false

/-- JavaScript `a > b`. -/
def jsGt : JSVal → JSVal → Bool
  | JSVal.num x, JSVal.num y => decide (y < x)
  | _, _ => false

/-- The `input` handler installed by `addParameterValidation`
(app.js lines 40-64), reduced to the validity verdict it assigns:
`true` means the `is-valid` class, `false` the `is-invalid` class.
`minAttr`/`maxAttr` are the `min`/`max` attributes (absent = `none`),
`enteredVal` is the entered text (`none` when it parses to `NaN`). -/
def markValid (minAttr maxAttr enteredVal : Option ℚ) : Bool :=
  let mn := parseFloatJS minAttr
  let mx := parseFloatJS maxAttr
  let v := parseFloatJS enteredVal
  if jsIsNaN v then false
  else if (jsNeUndef mn && jsLt v mn) || (jsNeUndef mx && jsGt v mx) then false
  else true

/-! ### Theme switching, app.js lines 113-137 -/

/-- The document state touched by the theme code: the body's `data-theme`
attribute, the `quantum-solver-theme` localStorage entry, and whether the
toggle icon shows the sun (dark mode) or the moon. -/
structure UIState where
  bodyTheme : Option String
  storedTheme : Option String
  iconSun : Bool
deriving DecidableEq

/-- JavaScript `a || d` on an attribute string (app.js line 120):
`undefined` and the empty string are falsy and fall through to the default. -/
def jsOrStr (a : Option String) (d : String) : String :=
  match a with
  | none => d
  | some s => if s = "" then d else s

/-- `setTheme` (app.js lines 126-137): writes the body attribute, stores the
theme in localStorage, and sets the toggle icon from the theme string. -/
def setTheme (t : String) (s : UIState) : UIState :=
  { s with
    bodyTheme := some t
    storedTheme := some t
    iconSun := t == "dark" }

/-- The `.theme-toggle` click handler (app.js lines 119-123): reads the
current body theme (defaulting to `light`), flips it, and applies
`setTheme`. -/
def themeToggleClick (s : UIState) : UIState :=
  let current := jsOrStr s.bodyTheme "light"
  let newTheme := if current == "light" then "dark" else "light"
  setTheme newTheme s

/-! ### Parameter schema and validator

Modelled from the spec (section 4.1); the Python `BaseSolver` validation code
is not under the sources. -/

/-- Modelled from the spec: a `ParameterSpec` of the missing solver package --
name, optional minimum, optional maximum, default and unit label
(section 3). -/
structure ParameterSpec where
  name : String
  minVal : Option ℚ
  maxVal : Option ℚ
  defaultVal : ℚ
  unitLabel : String
deriving DecidableEq

/-- Modelled from the spec: the reasons a field can fail validation
(section 4.1). -/
inductive ViolationReason where
  | missing
  | belowMin
  | aboveMax
deriving DecidableEq

/-- Modelled from the spec: a field-level violation record (section 4.1). -/
structure Violation where
  fieldName : String
  reason : ViolationReason
deriving DecidableEq

/-- Lookup of a field in the raw parameter map (a finite association list). -/
def lookupRaw (m : List (String × ℚ)) (k : String) : Option ℚ :=
  (m.find? (fun p => p.1 == k)).map Prod.snd

/-- Is the value below the (optional) declared minimum? -/
def belowOpt (v : ℚ) : Option ℚ → Bool
  | none => false
  | some mn => decide (v < mn)

/-- Is the value above the (optional) declared maximum? -/
def aboveOpt (v : ℚ) : Option ℚ → Bool
  | none => false
  | some mx => decide (mx < v)

/-- Modelled from the spec: the per-field check of the missing validator --
a missing field yields a `missing` violation, an out-of-range value a
`belowMin`/`aboveMax` violation, otherwise no violation (section 4.1). -/
def checkField (m : List (String × ℚ)) (s : ParameterSpec) : Option Violation :=
  match lookupRaw m s.name with
  | none => some ⟨s.name, ViolationReason.missing⟩
  | some v =>
    if belowOpt v s.minVal then some ⟨s.name, ViolationReason.belowMin⟩
    else if aboveOpt v s.maxVal then some ⟨s.name, ViolationReason.aboveMax⟩
    else none

/-- Modelled from the spec: `validate(solverId, rawMap)` of the missing
validator, restricted to its violation list -- every field of the schema is
checked and all violations are collected in schema order; the request is
accepted exactly when the list is empty (section 4.1). -/
def validate (schema : List ParameterSpec) (m : List (String × ℚ)) : List Violation :=
  schema.filterMap (checkField m)

/-! ### Solver engine

The Python solver package (`solvers/finite_well.py`, `tunneling.py`,
`harmonic.py`, `hydrogen.py`, `particle_box.py`) is not under the sources;
the definitions below are modelled from the spec, sections 3-5.
Floating-point numbers are modelled as real numbers. -/

/-- Modelled from the spec: the reduced Planck constant used throughout the
missing solver package (SI units). -/
noncomputable def hbar : ℝ := 1.0545718e-34

/-- Modelled from the spec: a `BoundState` of the result model (section 3). -/
structure BoundState where
  state_number : ℕ
  z_value : ℝ
  energy : ℝ
  binding_energy : ℝ
  penetration_depth : Option ℝ

/-- Modelled from the spec: an `EnergyLevel` of the result model (section 3);
each optional field is populated only by the solver variants to which it
applies. -/
structure EnergyLevel where
  n : ℕ
  energy : ℝ
  degeneracy : Option ℕ := none
  turning_point : Option ℝ := none
  wavelength : Option ℝ := none
  nodes : Option ℕ := none

/-- Modelled from the spec: a `TunnelingResult` of the result model
(section 3). -/
structure TunnelingResult where
  transmission_probability : ℝ
  reflection_probability : ℝ
  transmission_coefficient : ℝ
  reflection_coefficient : ℝ

/-- Modelled from the spec: the aggregate result of one solve invocation,
keyed by the relevant field (section 6). -/
structure SolverResult where
  bound_states : List BoundState := []
  energy_levels : List EnergyLevel := []
  tunneling_results : Option TunnelingResult := none

/-! #### Rectangular-barrier tunneling (spec section 4.4) -/

/-- Modelled from the spec: the small epsilon below which `|E - V0|` counts as
the degenerate limit in the missing `tunneling.py` (section 4.4). -/
noncomputable def degenerateEps : ℝ := 1e-10

/-- Modelled from the spec: the closed-form limiting transmission probability
(percent) at `E = V0`; it depends only on `L`, `m` and `E` (section 4.4). -/
noncomputable def limitTransmission (E L m : ℝ) : ℝ :=
  100 / (1 + m * E * L ^ 2 / (2 * hbar ^ 2))

/-- Modelled from the spec: the transmission probability (percent) of the
missing `tunneling.py` -- the hyperbolic (evanescent) form for `E < V0`, the
oscillatory form for `E > V0`, and the closed-form limit when `|E - V0|` is
below the degenerate epsilon (section 4.4). -/
noncomputable def transmissionProbability (E V0 L m : ℝ) : ℝ :=
  if |E - V0| < degenerateEps then
    limitTransmission E L m
  else if E < V0 then
    100 / (1 + V0 ^ 2 * Real.sinh (Real.sqrt (2 * m * (V0 - E)) / hbar * L) ^ 2 /
      (4 * E * (V0 - E)))
  else
    100 / (1 + V0 ^ 2 * Real.sin (Real.sqrt (2 * m * (E - V0)) / hbar * L) ^ 2 /
      (4 * E * (E - V0)))

/-- Modelled from the spec: the reflection probability of the missing
`tunneling.py` is asserted as `100 - transmission`, never independently
computed (section 4.4). -/
noncomputable def reflectionProbability (E V0 L m : ℝ) : ℝ :=
  100 - transmissionProbability E V0 L m

/-- Modelled from the spec: the tunneling result record assembled by the
missing `tunneling.py` (sections 3 and 4.4). -/
noncomputable def createTunnelingResult (E V0 L m : ℝ) : TunnelingResult :=
  { transmission_probability := transmissionProbability E V0 L m
    reflection_probability := reflectionProbability E V0 L m
    transmission_coefficient := transmissionProbability E V0 L m / 100
    reflection_coefficient := reflectionProbability E V0 L m / 100 }

/-! #### Newton iteration (spec section 4.3) -/

/-- Modelled from the spec: the residual convergence tolerance of the Newton
iteration in the missing `finite_well.py` (section 4.3). -/
noncomputable def newtonTol : ℝ := 1e-10

/-- Modelled from the spec: the iteration cap of the Newton iteration
(section 4.3). -/
def maxNewtonSteps : ℕ := 100

/-- Modelled from the spec: one Newton step. -/
noncomputable def newtonStep (f fd : ℝ → ℝ) (x : ℝ) : ℝ := x - f x / fd x

/-- Modelled from the spec: the fuelled Newton iteration of the missing
`finite_well.py`; it returns the first iterate whose residual is below the
tolerance and `none` when the fuel (the iteration cap) is exhausted
(section 4.3). -/
noncomputable def newtonIter (f fd : ℝ → ℝ) : ℕ → ℝ → Option ℝ
  | 0, _ => none
  | fuel + 1, x =>
    if |f x| < newtonTol then some x
    else newtonIter f fd fuel (newtonStep f fd x)

/-- Modelled from the spec: one capped Newton solve from an initial guess. -/
noncomputable def newtonSolve (f fd : ℝ → ℝ) (x0 : ℝ) : Option ℝ :=
  newtonIter f fd maxNewtonSteps x0

/-- Modelled from the spec: the number of Newton steps a fuelled run consumes
before convergence (equal to the fuel when it never converges). -/
noncomputable def newtonSteps (f fd : ℝ → ℝ) : ℕ → ℝ → ℕ
  | 0, _ => 0
  | fuel + 1, x =>
    if |f x| < newtonTol then 0
    else newtonSteps f fd fuel (newtonStep f fd x) + 1

/-- Modelled from the spec: the per-bracket root collection of the missing
`finite_well.py` -- each initial guess is solved independently and a
non-converged candidate is dropped while the remaining candidates are still
processed (sections 4.3 and 7). -/
noncomputable def collectRoots (f fd : ℝ → ℝ) : List ℝ → List ℝ
  | [] => []
  | x0 :: rest =>
    match newtonSolve f fd x0 with
    | none => collectRoots f fd rest
    | some r => r :: collectRoots f fd rest

/-! #### Finite square well (spec section 4.3) -/

/-- Modelled from the spec: the well-strength parameter
`z0 = sqrt(2 m V0 a^2) / hbar` of the missing `finite_well.py`
(section 4.3). -/
noncomputable def wellStrength (m V0 a : ℝ) : ℝ :=
  Real.sqrt (2 * m * V0 * a ^ 2) / hbar

/-- Modelled from the spec: the number of bound states the missing
`finite_well.py` reports -- one converged root per bracketing interval of
width `pi/2` fully scanned below `z0`, so the sequence is empty when
`z0 < pi/2` and gains one state each time `z0` crosses a multiple of `pi/2`
(section 4.3 edge case and section 8). -/
noncomputable def boundStateCount (z0 : ℝ) : ℕ :=
  ⌊z0 / (Real.pi / 2)⌋₊

/-- Modelled from the spec: the bound state produced from the root of the
`k`-th bracketing interval -- `E = hbar^2 z^2 / (2 m a^2) - V0`, binding
energy `V0 - |E|`, and penetration depth `1/kappa` with
`kappa = sqrt(-2 m E)/hbar`, present only for `E < 0` (section 4.3).  The
numeric root, not being expressible in closed form, is abstracted as the
midpoint of its bracketing interval; no claim constrains its value. -/
noncomputable def finiteWellState (m V0 a : ℝ) (k : ℕ) : BoundState :=
  let z : ℝ := ((k : ℝ) + 1 / 2) * (Real.pi / 2)
  let E : ℝ := hbar ^ 2 * z ^ 2 / (2 * m * a ^ 2) - V0
  { state_number := k + 1
    z_value := z
    energy := E
    binding_energy := V0 - |E|
    penetration_depth :=
      if E < 0 then some (hbar / Real.sqrt (-(2 * m * E))) else none }

/-- Modelled from the spec: the bound-state sequence of the missing
`finite_well.py` (section 4.3). -/
noncomputable def finiteWellBoundStates (m V0 a : ℝ) : List BoundState :=
  (List.range (boundStateCount (wellStrength m V0 a))).map (finiteWellState m V0 a)

/-! #### Closed-form spectra (spec section 4.5) -/

/-- Modelled from the spec: one level of the missing `particle_box.py` --
`E_n = n^2 pi^2 hbar^2 / (2 m L^2)`, wavelength `2 L / n`, node count
`n - 1` (section 4.5). -/
noncomputable def particleBoxLevel (L m : ℝ) (n : ℕ) : EnergyLevel :=
  { n := n
    energy := (n : ℝ) ^ 2 * Real.pi ^ 2 * hbar ^ 2 / (2 * m * L ^ 2)
    wavelength := some (2 * L / (n : ℝ))
    nodes := some (n - 1) }

/-- Modelled from the spec: the level list of the missing `particle_box.py`
for `n = 1..N` (section 4.5). -/
noncomputable def particleBoxLevels (L m : ℝ) (N : ℕ) : List EnergyLevel :=
  (List.range N).map (fun i => particleBoxLevel L m (i + 1))

/-- Modelled from the spec: the level list of the missing `harmonic.py` --
`E_n = hbar w (n + 1/2)`, classical turning points at
`sqrt(2 E_n / (m w^2))`, node count `n`, for `n = 0..N-1` (section 4.5). -/
noncomputable def harmonicLevels (m w : ℝ) (N : ℕ) : List EnergyLevel :=
  (List.range N).map (fun (i : ℕ) =>
    let E : ℝ := hbar * w * ((i : ℝ) + 1 / 2)
    { n := i
      energy := E
      turning_point := some (Real.sqrt (2 * E / (m * w ^ 2)))
      nodes := some i })

/-- Modelled from the spec: the Rydberg energy (eV) used by the missing
`hydrogen.py`. -/
noncomputable def rydbergEnergy : ℝ := 13.605693

/-- Modelled from the spec: the level list of the missing `hydrogen.py` --
`E_n = -Ry Z^2 / n^2`, degeneracy `n^2`, for `n = 1..N` (section 4.5). -/
noncomputable def hydrogenLevels (Z : ℝ) (N : ℕ) : List EnergyLevel :=
  (List.range N).map (fun i =>
    { n := i + 1
      energy := -(rydbergEnergy * Z ^ 2 / (((i : ℝ) + 1) ^ 2))
      degeneracy := some ((i + 1) ^ 2) })

/-! #### Dispatch (spec sections 2, 4.2, 6) -/

/-- Modelled from the spec: a validated request to one of the five solver
variants (sections 2 and 3). -/
inductive SolverRequest where
  | finiteWell (m V0 a : ℝ)
  | harmonic (m w : ℝ) (N : ℕ)
  | hydrogen (Z : ℝ) (N : ℕ)
  | tunneling (E V0 L m : ℝ)
  | particleBox (L m : ℝ) (N : ℕ)

/-- Modelled from the spec: the dispatcher over the five solver variants
(sections 2, 4.2 and 6); every variant is a pure function of the validated
request, holding no state between invocations (section 5). -/
noncomputable def solve : SolverRequest → SolverResult
  | SolverRequest.finiteWell m V0 a =>
    { bound_states := finiteWellBoundStates m V0 a }
  | SolverRequest.harmonic m w N =>
    { energy_levels := harmonicLevels m w N }
  | SolverRequest.hydrogen Z N =>
    { energy_levels := hydrogenLevels Z N }
  | SolverRequest.tunneling E V0 L m =>
    { tunneling_results := some (createTunnelingResult E V0 L m) }
  | SolverRequest.particleBox L m N =>
    { energy_levels := particleBoxLevels L m N }

/-! ### Theorems -/

/-- C8 (counterexample): the claim says a present optional field whose value
is `0` is reported as its value, never as not-applicable; but the
penetration-depth cell of app.js line 231 uses JavaScript truthiness, so a
present `0` renders as `N/A`. -/
theorem c8_present_zero_renders_na :
    penetrationCell (some 0) = Cell.na ∧ Cell.na ≠ Cell.val 0 := by
  constructor
  · rfl
  · intro h
    exact Cell.noConfusion h

/-- C8 (amended): an absent optional field renders as `N/A` (bound-state
table) or an omitted cell (energy-level table); a present energy-level field
-- including the value `0`, since the code tests `!== undefined` -- renders
as its value; but the penetration-depth cell, which uses the falsy fallback
`|| 'N/A'`, renders a present value as the value only when it is nonzero and
renders a present `0` as `N/A`. -/
theorem c8_optional_field_rendering :
    (∀ x : ℚ, x ≠ 0 → penetrationCell (some x) = Cell.val x) ∧
    penetrationCell none = Cell.na ∧
    penetrationCell (some 0) = Cell.na ∧
    (∀ x : ℚ, optionalCell (some x) = some (Cell.val x)) ∧
    optionalCell none = none := by
  refine ⟨fun x hx => ?_, rfl, rfl, fun x => rfl, rfl⟩
  simp [penetrationCell, hx]

/-- C8 (witness): a nonzero present penetration depth renders as its value,
and a present energy-level field of value `0` renders as the value. -/
theorem c8_optional_field_rendering_witness :
    penetrationCell (some 1) = Cell.val 1 ∧
    optionalCell (some 0) = some (Cell.val 0) :=
  ⟨c8_optional_field_rendering.1 1 (by decide),
   c8_optional_field_rendering.2.2.2.1 0⟩

/-- C9: in the client-side number-input handler, an entered value that parses
to `NaN` is always marked invalid, and when both the `min` and `max`
attributes are absent (each parsing to `NaN`, never `undefined`, so the
`!== undefined` guards do not exclude them) every finite entered value is
marked valid, because both range comparisons against `NaN` are false. -/
theorem c9_numeric_input_validation :
    (∀ minAttr maxAttr : Option ℚ, markValid minAttr maxAttr none = false) ∧
    (∀ v : ℚ, markValid none none (some v) = true) := by
  constructor
  · intro minAttr maxAttr; rfl
  · intro v; rfl

/-- C10: for each theme in light/dark, two clicks of the theme toggle restore
both the body `data-theme` attribute and the stored localStorage value to the
starting theme, and after every `setTheme` the body attribute and the
localStorage entry hold the same theme string. -/
theorem c10_theme_toggle :
    (∀ t : String, t = "light" ∨ t = "dark" → ∀ s : UIState,
      s.bodyTheme = some t →
      (themeToggleClick (themeToggleClick s)).bodyTheme = some t ∧
      (themeToggleClick (themeToggleClick s)).storedTheme = some t) ∧
    (∀ t : String, ∀ s : UIState,
      (setTheme t s).bodyTheme = some t ∧ (setTheme t s).storedTheme = some t) := by
  constructor
  · rintro t (rfl | rfl) s hs <;>
      simp [themeToggleClick, setTheme, jsOrStr, hs]
  · intro t s
    exact ⟨rfl, rfl⟩

/-- C10 (witness): both parts of the theme theorem at a concrete state. -/
theorem c10_theme_toggle_witness :
    (themeToggleClick (themeToggleClick ⟨some "light", none, false⟩)).bodyTheme
        = some "light" ∧
    (themeToggleClick (themeToggleClick ⟨some "light", none, false⟩)).storedTheme
        = some "light" ∧
    (setTheme "dark" ⟨some "light", none, false⟩).bodyTheme = some "dark" ∧
    (setTheme "dark" ⟨some "light", none, false⟩).storedTheme = some "dark" := by
  obtain ⟨h1, h2⟩ := c10_theme_toggle.1 "light" (Or.inl rfl)
    ⟨some "light", none, false⟩ rfl
  obtain ⟨h3, h4⟩ := c10_theme_toggle.2 "dark" ⟨some "light", none, false⟩
  exact ⟨h1, h2, h3, h4⟩

/-- C3: the validator checks every schema field and collects one violation
per failing field, never stopping at the first; in particular a request that
misses one required field and has one out-of-range field yields exactly the
two corresponding violations, in schema order.  Validation is a pure
function. -/
theorem c3_validator_collects_all (schema : List ParameterSpec)
    (m : List (String × ℚ)) :
    (validate schema m).length
        = schema.countP (fun s => (checkField m s).isSome) ∧
    (∀ s1 s2 : ParameterSpec, lookupRaw m s1.name = none →
      (∃ v mn, lookupRaw m s2.name = some v ∧ s2.minVal = some mn ∧ v < mn) →
      validate [s1, s2] m =
        [⟨s1.name, ViolationReason.missing⟩,
         ⟨s2.name, ViolationReason.belowMin⟩]) := by
  constructor
  · induction schema with
    | nil => rfl
    | cons s rest ih =>
      rw [validate, List.filterMap_cons, List.countP_cons]
      cases h : checkField m s
      · simp [h, ← ih, validate]
      · simp [h, ← ih, validate]
  · rintro s1 s2 h1 ⟨v, mn, h2, h3, h4⟩
    simp [validate, checkField, h1, h2, h3, belowOpt, h4]

/-- C3 (witness): a map missing the first field and out of range on the
second yields exactly the two violations. -/
theorem c3_validator_collects_all_witness :
    validate
        [⟨"width", none, none, 1, "m"⟩, ⟨"depth", some 1, some 10, 5, "eV"⟩]
        [("depth", (0 : ℚ))] =
      [⟨"width", ViolationReason.missing⟩,
       ⟨"depth", ViolationReason.belowMin⟩] :=
  (c3_validator_collects_all [] [("depth", (0 : ℚ))]).2
    ⟨"width", none, none, 1, "m"⟩ ⟨"depth", some 1, some 10, 5, "eV"⟩
    rfl ⟨0, 1, rfl, rfl, by decide⟩

theorem hbar_pos : 0 < hbar := by norm_num [hbar]

/-- C1: every tunneling result produced by the rectangular-barrier solver --
in both regimes and at the degenerate boundary, since `E`, `V0` are
universally quantified -- has transmission probability plus reflection
probability equal to 100, hence equal within 1e-6, because the reflection
probability is asserted as `100 - transmission`, never independently
computed. -/
theorem c1_tunneling_sum (E V0 L m : ℝ) (tr : TunnelingResult)
    (h : (solve (SolverRequest.tunneling E V0 L m)).tunneling_results = some tr) :
    tr.transmission_probability + tr.reflection_probability = 100 ∧
    |tr.transmission_probability + tr.reflection_probability - 100| ≤ 1e-6 := by
  have htr : tr = createTunnelingResult E V0 L m := by
    simpa [solve] using h.symm
  subst htr
  constructor
  · simp only [createTunnelingResult, reflectionProbability]
    ring
  · have h0 : transmissionProbability E V0 L m +
        (100 - transmissionProbability E V0 L m) - 100 = 0 := by ring
    simp only [createTunnelingResult, reflectionProbability, h0, abs_zero]
    norm_num

/-- C1 (witness): the invariant at a concrete tunneling request. -/
theorem c1_tunneling_sum_witness :
    (createTunnelingResult 1 2 1 1).transmission_probability +
        (createTunnelingResult 1 2 1 1).reflection_probability = 100 ∧
    |(createTunnelingResult 1 2 1 1).transmission_probability +
        (createTunnelingResult 1 2 1 1).reflection_probability - 100| ≤ 1e-6 :=
  c1_tunneling_sum 1 2 1 1 (createTunnelingResult 1 2 1 1) rfl

/-- C6: whenever `|E - V0|` is below the degenerate epsilon the solver
evaluates the closed-form limiting expression instead of either regime
formula, so the transmission depends only on `L`, `m` and `E` -- replacing
`V0` by any other barrier height in the degenerate band leaves the result
unchanged -- and no regime division by a near-zero quantity occurs. -/
theorem c6_degenerate_limit (E V0 Vq L m : ℝ)
    (h : |E - V0| < degenerateEps) (hq : |E - Vq| < degenerateEps) :
    transmissionProbability E V0 L m = limitTransmission E L m ∧
    transmissionProbability E V0 L m = transmissionProbability E Vq L m := by
  constructor
  · unfold transmissionProbability
    rw [if_pos h]
  · unfold transmissionProbability
    rw [if_pos h, if_pos hq]

/-- C6 (witness): the degenerate branch at `E = V0 = 0`. -/
theorem c6_degenerate_limit_witness :
    transmissionProbability 0 0 1 1 = limitTransmission 0 1 1 :=
  (c6_degenerate_limit 0 0 0 1 1 (by norm_num [degenerateEps])
    (by norm_num [degenerateEps])).1

/-- Helper: a Newton run on the constant residual 1 never converges. -/
theorem newtonIter_const_one (fuel : ℕ) (x : ℝ) :
    newtonIter (fun _ => (1 : ℝ)) (fun _ => 1) fuel x = none := by
  induction fuel generalizing x with
  | zero => rfl
  | succ n ih =>
    have hlt : ¬ |(1 : ℝ)| < newtonTol := by norm_num [newtonTol]
    simp only [newtonIter]
    rw [if_neg hlt]
    exact ih _

/-- C4: the Newton iteration is bounded by the iteration cap (its step count
never exceeds the fuel, in particular never exceeds 100); the root collection
over the bracketing intervals is exactly a filter of the per-candidate
solves; and a candidate on which the capped iteration fails to converge is
dropped from the result without aborting the remaining candidates.
Termination itself is structural: every definition is total. -/
theorem c4_newton_cap_and_drop :
    (∀ f fd : ℝ → ℝ, ∀ fuel : ℕ, ∀ x : ℝ, newtonSteps f fd fuel x ≤ fuel) ∧
    (∀ f fd : ℝ → ℝ, ∀ xs : List ℝ,
      collectRoots f fd xs = xs.filterMap (newtonSolve f fd)) ∧
    (∀ f fd : ℝ → ℝ, ∀ x0 : ℝ, ∀ rest : List ℝ,
      newtonSolve f fd x0 = none →
      collectRoots f fd (x0 :: rest) = collectRoots f fd rest) := by
  refine ⟨?_, ?_, ?_⟩
  · intro f fd fuel
    induction fuel with
    | zero => intro x; simp [newtonSteps]
    | succ n ih =>
      intro x
      by_cases h : |f x| < newtonTol
      · simp [newtonSteps, h]
      · rw [newtonSteps, if_neg h]
        exact Nat.add_le_add_right (ih _) 1
  · intro f fd xs
    induction xs with
    | nil => rfl
    | cons x0 rest ih =>
      rw [collectRoots, List.filterMap_cons]
      cases h : newtonSolve f fd x0 <;> simp [h, ih]
  · intro f fd x0 rest h
    rw [collectRoots, h]

/-- C4 (witness): the cap at a concrete run, and a concrete never-converging
candidate (constant residual 1) that is dropped without affecting the rest. -/
theorem c4_newton_cap_and_drop_witness :
    newtonSteps (fun _ => (1 : ℝ)) (fun _ => 1) maxNewtonSteps 0
        ≤ maxNewtonSteps ∧
    collectRoots (fun _ => (1 : ℝ)) (fun _ => 1) [0]
        = collectRoots (fun _ => (1 : ℝ)) (fun _ => 1) [] :=
  ⟨c4_newton_cap_and_drop.1 _ _ maxNewtonSteps 0,
   c4_newton_cap_and_drop.2.2 _ _ 0 [] (newtonIter_const_one maxNewtonSteps 0)⟩

/-- Helper: the well strength at `m = 1/2`, `V0 = 2`, `a = c * hbar`. -/
theorem wellStrength_c_hbar (c : ℝ) (hc : 0 ≤ c) :
    wellStrength (1 / 2) 2 (c * hbar) = c * Real.sqrt 2 := by
  unfold wellStrength
  have h1 : 2 * (1 / 2) * 2 * (c * hbar) ^ 2 = (c * hbar) ^ 2 * 2 := by ring
  rw [h1, Real.sqrt_mul (sq_nonneg _), Real.sqrt_sq (mul_nonneg hc hbar_pos.le)]
  rw [mul_right_comm c hbar (Real.sqrt 2), mul_div_assoc, div_self hbar_pos.ne',
    mul_one]

/-- C2: a finite-square-well request whose well strength `z0` is below
`pi/2` solves to a result whose bound-state sequence is empty (a result, not
an error), and a request with `z0` just above `pi/2` (below the next
threshold `pi`) yields exactly one bound state. -/
theorem c2_finite_well_count (m V0 a : ℝ) :
    (wellStrength m V0 a < Real.pi / 2 →
      (solve (SolverRequest.finiteWell m V0 a)).bound_states = []) ∧
    (Real.pi / 2 < wellStrength m V0 a → wellStrength m V0 a < Real.pi →
      (solve (SolverRequest.finiteWell m V0 a)).bound_states.length = 1) := by
  have hpi : (0 : ℝ) < Real.pi / 2 := by positivity
  constructor
  · intro h
    have hc : boundStateCount (wellStrength m V0 a) = 0 := by
      unfold boundStateCount
      rw [Nat.floor_eq_zero]
      exact (div_lt_one hpi).mpr h
    show finiteWellBoundStates m V0 a = []
    unfold finiteWellBoundStates
    rw [hc]
    rfl
  · intro h1 h2
    have hw : 0 ≤ wellStrength m V0 a := le_of_lt (lt_trans hpi h1)
    have hc : boundStateCount (wellStrength m V0 a) = 1 := by
      unfold boundStateCount
      rw [Nat.floor_eq_iff (by positivity)]
      constructor
      · rw [Nat.cast_one, le_div_iff₀ hpi]
        linarith
      · rw [Nat.cast_one, div_lt_iff₀ hpi]
        linarith
    show (finiteWellBoundStates m V0 a).length = 1
    unfold finiteWellBoundStates
    rw [hc]
    rfl

/-- C2 (witness): with `m = 1/2`, `V0 = 2`, the choice `a = hbar` gives
`z0 = sqrt 2 < pi/2` and an empty sequence, while `a = 2 * hbar` gives
`z0 = 2 sqrt 2` just above `pi/2` and exactly one bound state. -/
theorem c2_finite_well_count_witness :
    (solve (SolverRequest.finiteWell (1 / 2) 2 (1 * hbar))).bound_states = [] ∧
    (solve (SolverRequest.finiteWell (1 / 2) 2 (2 * hbar))).bound_states.length
        = 1 := by
  constructor
  · refine (c2_finite_well_count (1 / 2) 2 (1 * hbar)).1 ?_
    rw [wellStrength_c_hbar 1 (by norm_num)]
    have hs : Real.sqrt 2 < 1.42 := (Real.sqrt_lt' (by norm_num)).mpr (by norm_num)
    have hp : (3.141592 : ℝ) < Real.pi := Real.pi_gt_d6
    linarith
  · refine (c2_finite_well_count (1 / 2) 2 (2 * hbar)).2 ?_ ?_
    · rw [wellStrength_c_hbar 2 (by norm_num)]
      have hs : (1.41 : ℝ) < Real.sqrt 2 := (Real.lt_sqrt (by norm_num)).mpr (by norm_num)
      have hp : Real.pi < 3.15 := Real.pi_lt_d2
      linarith
    · rw [wellStrength_c_hbar 2 (by norm_num)]
      have hs : Real.sqrt 2 < 1.42 := (Real.sqrt_lt' (by norm_num)).mpr (by norm_num)
      have hp : (3.141592 : ℝ) < Real.pi := Real.pi_gt_d6
      linarith

/-- C5: for every particle-in-a-box request with level count `N >= 1` and
every `1 <= n <= N`, the `n`-th produced level has energy
`n^2 pi^2 hbar^2 / (2 m L^2)`, wavelength `2 L / n` and node count `n - 1`;
and at `L = 1e-9`, `m = 9.11e-31`, the first level's energy equals the
closed-form ground-state value within `1e-20`. -/
theorem c5_particle_box (L m : ℝ) (N n : ℕ) (h1 : 1 ≤ n) (h2 : n ≤ N) :
    (particleBoxLevels L m N)[n - 1]? =
      some { n := n
             energy := (n : ℝ) ^ 2 * Real.pi ^ 2 * hbar ^ 2 / (2 * m * L ^ 2)
             wavelength := some (2 * L / (n : ℝ))
             nodes := some (n - 1) } ∧
    |((particleBoxLevels 1e-9 (9.11e-31) 1).headD
          ⟨0, 0, none, none, none, none⟩).energy -
        hbar ^ 2 * Real.pi ^ 2 / (2 * (9.11e-31) * (1e-9 : ℝ) ^ 2)| < 1e-20 := by
  constructor
  · have hlt : n - 1 < N := by omega
    have hn : n - 1 + 1 = n := by omega
    simp only [particleBoxLevels, List.getElem?_map, List.getElem?_range, hlt,
      if_pos]
    show some (particleBoxLevel L m (n - 1 + 1)) = _
    rw [hn]
    rfl
  · have hl : particleBoxLevels 1e-9 (9.11e-31) 1
        = [particleBoxLevel 1e-9 (9.11e-31) 1] := by
      simp [particleBoxLevels, List.range_succ]
    have he : ((particleBoxLevels 1e-9 (9.11e-31) 1).headD
          ⟨0, 0, none, none, none, none⟩).energy
        = hbar ^ 2 * Real.pi ^ 2 / (2 * (9.11e-31) * (1e-9 : ℝ) ^ 2) := by
      rw [hl]
      show (particleBoxLevel 1e-9 (9.11e-31) 1).energy = _
      unfold particleBoxLevel
      push_cast
      ring
    rw [he, sub_self, abs_zero]
    norm_num

/-- C5 (witness): the level equations at `L = m = 1`, `N = n = 1`. -/
theorem c5_particle_box_witness :
    (particleBoxLevels 1 1 1)[1 - 1]? =
      some { n := 1
             energy := ((1 : ℕ) : ℝ) ^ 2 * Real.pi ^ 2 * hbar ^ 2 / (2 * 1 * 1 ^ 2)
             wavelength := some (2 * 1 / ((1 : ℕ) : ℝ))
             nodes := some (1 - 1) } ∧
    |((particleBoxLevels 1e-9 (9.11e-31) 1).headD
          ⟨0, 0, none, none, none, none⟩).energy -
        hbar ^ 2 * Real.pi ^ 2 / (2 * (9.11e-31) * (1e-9 : ℝ) ^ 2)| < 1e-20 :=
  c5_particle_box 1 1 1 1 le_rfl le_rfl

/-- C7: `solve` is deterministic -- it depends on nothing but the request, so
two invocations on identical input produce identical output.  The embedding
is stateless by construction, mirroring the spec's stateless solver
contract. -/
theorem c7_solve_deterministic (r1 r2 : SolverRequest) (h : r1 = r2) :
    solve r1 = solve r2 := by rw [h]

/-- C7 (witness): two invocations on the same concrete request agree. -/
theorem c7_solve_deterministic_witness :
    solve (SolverRequest.particleBox 1 1 1)
        = solve (SolverRequest.particleBox 1 1 1) :=
  c7_solve_deterministic _ _ rfl

end QuantumSolver
